import Mathlib

/- Verification of the undercat library: a shallow embedding of the Reader
   functor (src/undercat/__init__.py) together with the Python-level
   semantics (object identity, truthiness, dynamic operators) needed to
   settle the specification's claims. -/

namespace Undercat

/-- Embeds the frozen dataclass `Reader`, which wraps a function `func : S -> A`. -/
structure Reader (S A : Type) where
  func : S → A

variable {S A B : Type}

/-- Embeds `Reader.__call__`: calls the wrapped function. -/
def Reader.invoke (self : Reader S A) (val : S) : A :=
  self.func val

/-- Embeds `Reader.const`: a Reader that is a constant function returning `val`. -/
def Reader.const (val : A) : Reader S A :=
  ⟨fun _ => val⟩

/-- Embeds `Reader.mktuple`: converts multiple Readers into a single Reader that
produces the ordered sequence of their values (the Python code builds
`tuple(reader(val) for reader in readers)`; a Lean list models the tuple). -/
def Reader.mktuple (readers : List (Reader S A)) : Reader S (List A) :=
  ⟨fun val => readers.map (fun reader => reader.invoke val)⟩

/-- Embeds `Reader.map`: left-composes a function onto the wrapped function. -/
def Reader.map (self : Reader S A) (func : A → B) : Reader S B :=
  ⟨fun val => func (self.invoke val)⟩

/-- Embeds `Reader.map_binary`: applies a binary operator to the outputs of this
Reader and the other Reader, `operator(self(val), other(val))`. -/
def Reader.map_binary (self : Reader S A) (operator : A → A → B) (other : Reader S A) : Reader S B :=
  ⟨fun val => operator (self.invoke val) (other.invoke val)⟩

/-- Models Python's native `operator.truediv` at a value type (Lean has a single
`Div` class, while Python distinguishes true and floor division). -/
class TrueDiv (A : Type) where
  truediv : A → A → A

/-- Models Python's native `operator.floordiv` at a value type. -/
class FloorDiv (A : Type) where
  floordiv : A → A → A

/-- Models Python's native `operator.matmul` (the `@` operator) at a value type. -/
class MatMul (A : Type) where
  matmul : A → A → A

/-- Models Python's native rich comparisons `operator.lt/le/ge/gt`, which return
booleans at the value types used with Readers. -/
class PyOrd (A : Type) where
  lt : A → A → Bool
  le : A → A → Bool
  ge : A → A → Bool
  gt : A → A → Bool

/-- Embeds `Reader.__add__`: `map_binary` with the native `operator.add`. -/
def Reader.add [Add A] (self other : Reader S A) : Reader S A :=
  self.map_binary (fun a b => a + b) other

/-- Embeds `Reader.__sub__`: `map_binary` with the native `operator.sub`. -/
def Reader.sub [Sub A] (self other : Reader S A) : Reader S A :=
  self.map_binary (fun a b => a - b) other

/-- Embeds `Reader.__mul__`: `map_binary` with the native `operator.mul`. -/
def Reader.mul [Mul A] (self other : Reader S A) : Reader S A :=
  self.map_binary (fun a b => a * b) other

/-- Embeds `Reader.__truediv__`: `map_binary` with the native `operator.truediv`. -/
def Reader.truediv [TrueDiv A] (self other : Reader S A) : Reader S A :=
  self.map_binary TrueDiv.truediv other

/-- Embeds `Reader.__mod__`: `map_binary` with the native `operator.mod`. -/
def Reader.mod [Mod A] (self other : Reader S A) : Reader S A :=
  self.map_binary (fun a b => a % b) other

/-- Embeds `Reader.__floordiv__`: `map_binary` with the native `operator.floordiv`. -/
def Reader.floordiv [FloorDiv A] (self other : Reader S A) : Reader S A :=
  self.map_binary FloorDiv.floordiv other

/-- Embeds `Reader.__pow__`: `map_binary` with the native `operator.pow`. -/
def Reader.pow [HPow A A A] (self other : Reader S A) : Reader S A :=
  self.map_binary (fun a b => a ^ b) other

/-- Embeds `Reader.__matmul__`: `map_binary` with the native `operator.matmul`. -/
def Reader.matmul [MatMul A] (self other : Reader S A) : Reader S A :=
  self.map_binary MatMul.matmul other

/-- Embeds `Reader.__and__`: `map_binary` with the native bitwise `operator.and_`. -/
def Reader.and [AndOp A] (self other : Reader S A) : Reader S A :=
  self.map_binary (fun a b => a &&& b) other

/-- Embeds `Reader.__or__`: `map_binary` with the native bitwise `operator.or_`. -/
def Reader.or [OrOp A] (self other : Reader S A) : Reader S A :=
  self.map_binary (fun a b => a ||| b) other

/-- Embeds `Reader.__xor__`: `map_binary` with the native bitwise `operator.xor`. -/
def Reader.xor [Xor A] (self other : Reader S A) : Reader S A :=
  self.map_binary (fun a b => a ^^^ b) other

/-- Embeds `Reader.__lt__`: `map_binary` with the native `operator.lt`. -/
def Reader.lt [PyOrd A] (self other : Reader S A) : Reader S Bool :=
  self.map_binary PyOrd.lt other

/-- Embeds `Reader.__le__`: `map_binary` with the native `operator.le`. -/
def Reader.le [PyOrd A] (self other : Reader S A) : Reader S Bool :=
  self.map_binary PyOrd.le other

/-- Embeds `Reader.__ge__`: `map_binary` with the native `operator.ge`. -/
def Reader.ge [PyOrd A] (self other : Reader S A) : Reader S Bool :=
  self.map_binary PyOrd.ge other

/-- Embeds `Reader.__gt__`: `map_binary` with the native `operator.gt`. -/
def Reader.gt [PyOrd A] (self other : Reader S A) : Reader S Bool :=
  self.map_binary PyOrd.gt other

/- Python object-level semantics of the Reader class itself: `==` and `bool()`.
   `Reader` is declared `@dataclass(frozen=True)` with the single field `func`,
   so the generated `__eq__` compares the `func` fields; Python compares
   function objects by object identity.  The model therefore carries the
   object identities explicitly. -/

/-- Models a Python function object: its behaviour together with its object
identity (`id()`), since Python compares function objects by identity. -/
structure PyFunc (S A : Type) where
  ident : Nat
  fn : S → A

/-- Models a Reader instance as a Python object: its own object identity plus
the dataclass field `func` (a Python function object). -/
structure ReaderObj (S A : Type) where
  ident : Nat
  func : PyFunc S A

/-- Embeds the `__eq__` generated for the frozen dataclass `Reader`: it compares
the field tuples `(self.func,) == (other.func,)`, and two Python function
objects are `==` exactly when they are the same object (same identity). -/
def readerEq (r1 r2 : ReaderObj S A) : Bool :=
  r1.func.ident == r2.func.ident

/-- Models Python's truthiness protocol: `bool(obj)` consults `__bool__` when the
class defines it, else `__len__` when the class defines it, else returns True. -/
def pyObjectBool (boolMethod : Option Bool) (lenMethod : Option Nat) : Bool :=
  match boolMethod with
  | Option.some b => b
  | Option.none =>
    match lenMethod with
    | Option.some n => n != 0
    | Option.none => true

/-- Embeds `bool()` applied to a Reader object: the `Reader` class defines
neither `__bool__` nor `__len__` (only `__iter__`, `__getitem__` and the
operator overloads), so Python's default object truthiness applies and the
wrapped function is never consulted. -/
def Reader.toBool (_self : Reader S A) : Bool :=
  pyObjectBool Option.none Option.none

/- Dynamic (Python-typed) value model, used for the reduction engine where the
   behaviour depends on Python's dynamic operator semantics.  `Val.none` models
   the Python value `None`, which the source uses as the omitted-argument
   sentinel for `initial`/`start`/`default`. -/

/-- Python values relevant to the reduction claims: `None`, booleans, integers
and strings (booleans are a subtype of int in Python, so mixed arithmetic
coerces them to 0/1). -/
inductive Val where
  | none
  | bool (b : Bool)
  | int (n : Int)
  | str (s : String)
deriving DecidableEq

/-- Python's integer view of a value: booleans coerce to 0/1, integers are
themselves, other values are not integers. -/
def Val.asInt? : Val → Option Int
  | .bool b => Option.some (if b then 1 else 0)
  | .int n => Option.some n
  | _ => Option.none

/-- Python truthiness of a value (`bool(v)`): `None` is falsy, booleans are
themselves, integers are truthy iff nonzero, strings truthy iff nonempty. -/
def Val.truthy : Val → Bool
  | .none => false
  | .bool b => b
  | .int n => n != 0
  | .str s => !s.isEmpty

/-- Python exceptions raised by the modelled fragment. -/
inductive PyErr where
  | typeError (msg : String)
deriving DecidableEq

/-- The error raised by `functools.reduce` on an empty iterable with no initial
value (the tests match it against the substring 'no initial value'). -/
def noInitialValueError : PyErr :=
  .typeError "reduce() of empty iterable with no initial value"

/-- Embeds the native `operator.and_` (`&`) on the modelled values: bool & bool
stays a bool, otherwise both operands must be integers (bools coerce to 0/1)
and the result is their bitwise and; anything else raises TypeError. -/
def pyAnd (a b : Val) : Except PyErr Val :=
  match a, b with
  | .bool b1, .bool b2 => .ok (.bool (b1 && b2))
  | _, _ =>
    match a.asInt?, b.asInt? with
    | Option.some m, Option.some n => .ok (.int (Int.land m n))
    | _, _ => .error (.typeError "unsupported operand type(s) for &")

/-- Embeds the native `operator.or_` (`|`) on the modelled values, analogously
to `pyAnd`. -/
def pyOr (a b : Val) : Except PyErr Val :=
  match a, b with
  | .bool b1, .bool b2 => .ok (.bool (b1 || b2))
  | _, _ =>
    match a.asInt?, b.asInt? with
    | Option.some m, Option.some n => .ok (.int (Int.lor m n))
    | _, _ => .error (.typeError "unsupported operand type(s) for |")

/-- Embeds the native `operator.add` (`+`) on the modelled values: string
concatenation, or integer addition with bool coercion; mixing a number and a
string raises the TypeError about unsupported operand types. -/
def pyAdd (a b : Val) : Except PyErr Val :=
  match a, b with
  | .str s1, .str s2 => .ok (.str (s1 ++ s2))
  | _, _ =>
    match a.asInt?, b.asInt? with
    | Option.some m, Option.some n => .ok (.int (m + n))
    | _, _ => .error (.typeError "unsupported operand type(s) for +")

/-- Python string repetition `n * s` (negative counts give the empty string). -/
def strRepeat (n : Int) (s : String) : String :=
  String.join (List.replicate n.toNat s)

/-- Embeds the native `operator.mul` (`*`) on the modelled values: integer
multiplication with bool coercion, or string repetition when one operand is a
string and the other an integer. -/
def pyMul (a b : Val) : Except PyErr Val :=
  match a.asInt?, b.asInt? with
  | Option.some m, Option.some n => .ok (.int (m * n))
  | Option.some m, Option.none =>
    match b with
    | .str s => .ok (.str (strRepeat m s))
    | _ => .error (.typeError "unsupported operand type(s) for *")
  | Option.none, Option.some n =>
    match a with
    | .str s => .ok (.str (strRepeat n s))
    | _ => .error (.typeError "unsupported operand type(s) for *")
  | _, _ => .error (.typeError "unsupported operand type(s) for *")

/-- Embeds Python's `<` on the modelled values: numeric comparison with bool
coercion, lexicographic comparison of strings, TypeError otherwise. -/
def pyLt (a b : Val) : Except PyErr Bool :=
  match a.asInt?, b.asInt? with
  | Option.some m, Option.some n => .ok (decide (m < n))
  | _, _ =>
    match a, b with
    | .str s1, .str s2 => .ok (decide (s1 < s2))
    | _, _ => .error (.typeError "not supported between instances")

/-- Embeds `builtins.min` on two arguments, as used by `undercat.min` through
`reduce`: `min(a, b)` is `b` if `b < a` else `a`. -/
def pyMin (a b : Val) : Except PyErr Val :=
  (pyLt b a).map (fun lt => if lt then b else a)

/-- Embeds `builtins.max` on two arguments, as used by `undercat.max` through
`reduce`: `max(a, b)` is `b` if `b > a` (equivalently `a < b`) else `a`. -/
def pyMax (a b : Val) : Except PyErr Val :=
  (pyLt a b).map (fun lt => if lt then b else a)

/-- Embeds `undercat.reduce`: fans the environment out through `mktuple`, then
folds the operator over the produced values.  `initial = Val.none` models the
Python default argument `None`: the source tests `if initial is None` and in
that case uses `functools.reduce` without a seed, which raises the
no-initial-value TypeError on an empty sequence and folds from the first
element otherwise; with any other `initial` the fold is seeded with it.
Operator failures propagate through the `Except` monad of the fold. -/
def reduce (readers : List (Reader Val Val)) (operator : Val → Val → Except PyErr Val) (initial : Val) : Reader Val (Except PyErr Val) :=
  (Reader.mktuple readers).map (fun vals =>
    if initial = Val.none then
      match vals with
      | [] => .error noInitialValueError
      | v :: vs => vs.foldlM operator v
    else
      vals.foldlM operator initial)

/-- Embeds `undercat.all`: `reduce` with the bitwise `operator.and_` and
`initial=True`. -/
def all (readers : List (Reader Val Val)) : Reader Val (Except PyErr Val) :=
  reduce readers pyAnd (Val.bool true)

/-- Embeds `undercat.any`: `reduce` with the bitwise `operator.or_` and
`initial=False`. -/
def any (readers : List (Reader Val Val)) : Reader Val (Except PyErr Val) :=
  reduce readers pyOr (Val.bool false)

/-- Embeds `undercat.sum`: `reduce` with `operator.add`; `start = Val.none`
models the default argument `None` (omitted start). -/
def sum (readers : List (Reader Val Val)) (start : Val) : Reader Val (Except PyErr Val) :=
  reduce readers pyAdd start

/-- Embeds `undercat.prod`: `reduce` with `operator.mul`; `start = Val.none`
models the default argument `None` (omitted start). -/
def prod (readers : List (Reader Val Val)) (start : Val) : Reader Val (Except PyErr Val) :=
  reduce readers pyMul start

/-- Embeds `undercat.min`: `reduce` with `builtins.min`; `default = Val.none`
models the default argument `None` (omitted default). -/
def min (readers : List (Reader Val Val)) (default : Val) : Reader Val (Except PyErr Val) :=
  reduce readers pyMin default

/-- Embeds `undercat.max`: `reduce` with `builtins.max`; `default = Val.none`
models the default argument `None` (omitted default). -/
def max (readers : List (Reader Val Val)) (default : Val) : Reader Val (Except PyErr Val) :=
  reduce readers pyMax default

end Undercat

namespace Undercat

/-- Claim C1: for every pure function f, function g and environment e,
`Reader(f).map(g).invoke(e) = g(f(e))`; `map` builds a new Reader that runs the
original wrapped function first and then applies g to its result. -/
theorem c1_map_composition (S A B : Type) (f : S → A) (g : A → B) (r : Reader S A) (e : S) :
    ((Reader.mk f).map g).invoke e = g (f e) ∧ (r.map g).invoke e = g (r.invoke e) :=
  ⟨rfl, rfl⟩

/-- Claim C2: for every pair of Readers, every overloaded binary operator
(arithmetic + - * / % // ** @, bitwise & | ^, comparisons < <= >= >) and every
environment e, the composite Reader applied to e yields the native operator
applied to `r1.invoke e` (first argument, invoked first) and `r2.invoke e`
(second argument, same environment); each overload is `map_binary` with the
corresponding native operator. -/
theorem c2_binary_operator_overloads (S A : Type)
    [Add A] [Sub A] [Mul A] [TrueDiv A] [Mod A] [FloorDiv A] [HPow A A A] [MatMul A]
    [AndOp A] [OrOp A] [Xor A] [PyOrd A]
    (r1 r2 : Reader S A) (e : S) :
    (∀ (B : Type) (op : A → A → B), (r1.map_binary op r2).invoke e = op (r1.invoke e) (r2.invoke e))
    ∧ (r1.add r2).invoke e = r1.invoke e + r2.invoke e
    ∧ (r1.sub r2).invoke e = r1.invoke e - r2.invoke e
    ∧ (r1.mul r2).invoke e = r1.invoke e * r2.invoke e
    ∧ (r1.truediv r2).invoke e = TrueDiv.truediv (r1.invoke e) (r2.invoke e)
    ∧ (r1.mod r2).invoke e = r1.invoke e % r2.invoke e
    ∧ (r1.floordiv r2).invoke e = FloorDiv.floordiv (r1.invoke e) (r2.invoke e)
    ∧ (r1.pow r2).invoke e = r1.invoke e ^ r2.invoke e
    ∧ (r1.matmul r2).invoke e = MatMul.matmul (r1.invoke e) (r2.invoke e)
    ∧ (r1.and r2).invoke e = r1.invoke e &&& r2.invoke e
    ∧ (r1.or r2).invoke e = r1.invoke e ||| r2.invoke e
    ∧ (r1.xor r2).invoke e = r1.invoke e ^^^ r2.invoke e
    ∧ (r1.lt r2).invoke e = PyOrd.lt (r1.invoke e) (r2.invoke e)
    ∧ (r1.le r2).invoke e = PyOrd.le (r1.invoke e) (r2.invoke e)
    ∧ (r1.ge r2).invoke e = PyOrd.ge (r1.invoke e) (r2.invoke e)
    ∧ (r1.gt r2).invoke e = PyOrd.gt (r1.invoke e) (r2.invoke e) :=
  ⟨fun _ _ => rfl, rfl, rfl, rfl, rfl, rfl, rfl, rfl, rfl, rfl, rfl, rfl, rfl, rfl, rfl, rfl⟩

/-- Claim C7: for every n ≥ 0, Readers r1..rn and environment e,
`mktuple(r1,...,rn).invoke(e)` is the ordered sequence of the values of the
input Readers, each invoked with that same environment in the given order; in
particular the empty input yields the empty sequence. -/
theorem c7_mktuple_fanout (S A : Type) (readers : List (Reader S A)) (e : S) :
    (Reader.mktuple readers).invoke e = readers.map (fun r => r.invoke e)
    ∧ (Reader.mktuple ([] : List (Reader S A))).invoke e = [] :=
  ⟨rfl, rfl⟩

/-- Claim C9: native boolean coercion of a Reader object itself always yields
true, for every Reader regardless of its wrapped function, and without
consulting the wrapped function (bool() is constant in the wrapped function:
the class defines neither a bool-method nor a len-method, so Python's default
object truthiness applies). -/
theorem c9_reader_always_truthy (S A : Type) (r : Reader S A) (f g : S → A) :
    Reader.toBool r = true ∧ Reader.toBool (Reader.mk f) = Reader.toBool (Reader.mk g) :=
  ⟨rfl, rfl⟩

end Undercat

namespace Undercat

/-- A single Python function object of identity 0 (models a module-level
function such as `square` in the tests, referenced twice). -/
def sharedFn : PyFunc Int Int :=
  ⟨0, fun x => x * x⟩

/-- A Reader instance (object identity 1) wrapping the shared function object. -/
def readerInst1 : ReaderObj Int Int :=
  ⟨1, sharedFn⟩

/-- A distinct Reader instance (object identity 2) wrapping the same shared
function object. -/
def readerInst2 : ReaderObj Int Int :=
  ⟨2, sharedFn⟩

/-- Claim C3 counterexample: two distinct Reader instances (different object
identities) constructed from the same function object compare equal under the
dataclass-generated `==`, refuting the claim that a Reader is `==` only to
itself. -/
theorem c3_identity_equality_counterexample :
    readerInst1.ident ≠ readerInst2.ident ∧ readerEq readerInst1 readerInst2 = true :=
  ⟨by decide, rfl⟩

/-- Claim C3 (amended): two Readers are `==` exactly when their wrapped function
objects are identical (the same Python function object).  Hence every Reader is
`==` to itself, Readers wrapping distinct function objects (even behaviourally
identical ones, such as two separately constructed lambdas from `const`) are
never `==`, but two distinct Reader instances wrapping the same function object
are `==`. -/
theorem c3_identity_equality_amended (S A : Type) (r1 r2 : ReaderObj S A) :
    (readerEq r1 r2 = true ↔ r1.func.ident = r2.func.ident) ∧ readerEq r1 r1 = true := by
  constructor
  · exact beq_iff_eq
  · simp [readerEq]

/-- Claim C4 (code bug): `all` folds with the bitwise `operator.and_`, so for a
Reader producing the truthy integer 2 the fold computes `True & 2 == 0`:
`all([const(2)])` invoked on any environment returns 0, which is falsy, while
the claim (and the docstring of `all`, which promises the semantics of the
native `all` function) requires a result that is true since `bool(2)` is true. -/
theorem c4_all_bitwise_and_bug :
    (Undercat.all [Reader.const (Val.int 2)]).invoke (Val.int 0) = Except.ok (Val.int 0)
    ∧ Val.truthy (Val.int 0) = false
    ∧ Val.truthy (Val.int 2) = true :=
  ⟨rfl, rfl, rfl⟩

/-- Claim C5: for `sum`, `prod`, `min` and `max` on an empty sequence of Readers
with no initial/start/default value (modelled by the `None` sentinel, the
default of the omitted argument), the reduction Reader itself is constructed
(the embedding is a total function into `Reader`), and invoking it on any
environment yields the no-initial-value TypeError. -/
theorem c5_empty_reduction_errors (e : Val) :
    (Undercat.sum [] Val.none).invoke e = Except.error noInitialValueError
    ∧ (Undercat.prod [] Val.none).invoke e = Except.error noInitialValueError
    ∧ (Undercat.min [] Val.none).invoke e = Except.error noInitialValueError
    ∧ (Undercat.max [] Val.none).invoke e = Except.error noInitialValueError :=
  ⟨rfl, rfl, rfl, rfl⟩

/-- Claim C6: `reduce` over a one-element sequence with `initial` omitted (the
`None` sentinel) invokes the single Reader on the environment and returns its
value unchanged; the operator is universally quantified and unconstrained, so it
is never applied. -/
theorem c6_singleton_reduce_identity (r : Reader Val Val) (operator : Val → Val → Except PyErr Val) (e : Val) :
    (Undercat.reduce [r] operator Val.none).invoke e = Except.ok (r.invoke e) :=
  rfl

/-- Claim C8: `all` of the empty sequence invoked on any environment returns
True and `any` of the empty sequence returns False (vacuous truth/falsity from
the initial values True/False of the seeded folds). -/
theorem c8_vacuous_all_any (e : Val) :
    (Undercat.all []).invoke e = Except.ok (Val.bool true)
    ∧ (Undercat.any []).invoke e = Except.ok (Val.bool false) :=
  ⟨rfl, rfl⟩

/-- Claim C10: an explicit initial/start/default argument of `None` is the very
sentinel that marks the argument omitted (`sum`/`min` pass it straight through
as `initial`), so `reduce(readers, op, None)` over an empty sequence fails at
invocation with the no-initial-value TypeError and does not produce `None`. -/
theorem c10_none_initial_sentinel (operator : Val → Val → Except PyErr Val) (readers : List (Reader Val Val)) (e : Val) :
    (Undercat.reduce [] operator Val.none).invoke e = Except.error noInitialValueError
    ∧ (Undercat.reduce [] operator Val.none).invoke e ≠ Except.ok Val.none
    ∧ Undercat.sum readers Val.none = Undercat.reduce readers pyAdd Val.none
    ∧ Undercat.min readers Val.none = Undercat.reduce readers pyMin Val.none
    ∧ (Undercat.min [] Val.none).invoke e = Except.error noInitialValueError := by
  refine ⟨rfl, ?_, rfl, rfl, rfl⟩
  intro h
  have h1 : (Undercat.reduce [] operator Val.none).invoke e = Except.error noInitialValueError := rfl
  rw [h1] at h
  exact Except.noConfusion h

end Undercat
